import Mathlib

/-!
Shallow embedding of `src/pyextremes/eva.py` — the `EVA` orchestrator class of
the pyextremes package — together with proofs checking the natural-language
specification against it.

Modelling conventions:
* pandas timestamps and timedeltas are embedded as `Rat` (an exact ratio of the
  underlying nanosecond counters); signal values are `Rat`, with `Option Rat`
  representing a possibly-NaN entry of a pandas Series.
* Python exceptions become an explicit `PyError` value returned through
  `Except`; a method that mutates `self` becomes a function from the old
  `EVAState` to an `Except PyError EVAState`.
* External collaborators (`pyextremes.extremes.get_extremes`,
  `ExtremesTransformer`, `get_return_periods`, `pyextremes.models.get_model`,
  the fitted model object, `pandas.to_timedelta`) live outside `eva.py`; they
  are passed in as function parameters so that theorems can quantify over
  every possible collaborator behaviour.
* Plot rendering (matplotlib) is out of scope; the diagnostic-data functions
  return the coordinate sequences that the code hands to the renderer.
-/

namespace PyExtremes

/-- Kinds of Python exceptions raised (directly or by the runtime) in the
paths of `eva.py` modelled here. -/
inductive PyError where
  | typeError (msg : String)
  | valueError (msg : String)
  | attributeError (msg : String)
  | keyError (key : String)
  | indexError
  | zeroDivisionError
  | runtimeError
  deriving DecidableEq, Repr

/-- `np.issubdtype(data.dtype, np.number)` check: dtype of a pandas Series,
collapsed to whether it is a numeric dtype. -/
inductive Dtype where
  | numeric
  | object
  deriving DecidableEq, Repr

/-- Name of the dtype as it would be interpolated into the error message. -/
def Dtype.name : Dtype → String
  | .numeric => "float64"
  | .object => "object"

/-- Whether the index of the Series consists of date-time objects
(`data.index.is_all_dates`). -/
inductive IndexKind where
  | datetime
  | other
  deriving DecidableEq, Repr

/-- A pandas Series as received by `EVA.__init__`: an index kind, a value
dtype, and ordered (timestamp, value) entries, `none` standing for NaN. -/
structure PySeries where
  indexKind : IndexKind
  dtype : Dtype
  entries : List (Rat × Option Rat)
  deriving DecidableEq, Repr

/-- The argument passed for `data`: either a pandas Series or some other
Python object (only its type name matters, for the TypeError message). -/
inductive PyInput where
  | series (s : PySeries)
  | other (typename : String)
  deriving DecidableEq, Repr

/-- A duration-valued keyword argument before normalization: either a textual
duration such as "1Y" or an already-constructed `pandas.Timedelta`. -/
inductive PdDuration where
  | str (s : String)
  | td (d : Rat)
  deriving DecidableEq, Repr

/-- Keyword arguments accepted by `EVA.get_extremes` (key present ↔ `some`). -/
structure ExtremesKwargsIn where
  block_size : Option PdDuration := none
  threshold : Option Rat := none
  r : Option PdDuration := none
  errors : Option String := none
  deriving DecidableEq, Repr

/-- The kwargs dictionary as stored in `self.extremes_kwargs` after lines
231–234 of `eva.py`: a textual `block_size` has been converted with
`pd.to_timedelta`, so the stored block size (when present) is a Timedelta. -/
structure StoredKwargs where
  block_size : Option Rat := none
  threshold : Option Rat := none
  r : Option PdDuration := none
  errors : Option String := none
  deriving DecidableEq, Repr

/-- Keyword arguments forwarded to the model collaborator by `fit_model` and
`get_return_value` (key present ↔ `some`). -/
structure ModelKwargs where
  n_walkers : Option Nat := none
  n_samples : Option Nat := none
  progress : Option Bool := none
  burn_in : Option Nat := none
  deriving DecidableEq, Repr

/-- The `ExtremesTransformer` collaborator object stored in
`self.extremes_transformer`. -/
structure Transformer where
  forward_transform : Rat → Rat
  inverse_transform : Rat → Rat
  transformed_extremes : List Rat

/-- A scalar-or-array numeric value, as produced by the exceedance
probability computation (mirrors Python float vs numpy array). -/
inductive ScalarOrArray where
  | scalar (x : Rat)
  | array (xs : List Rat)
  deriving DecidableEq, Repr

/-- A (return value, lower CI bound, upper CI bound) triple returned by the
fitted model collaborator. -/
structure RVResult where
  return_value : ScalarOrArray
  lower_ci : Option ScalarOrArray
  upper_ci : Option ScalarOrArray

/-- The fitted model collaborator stored in `self.model`: distribution name,
probability queries, and the return-value computation. -/
structure Model where
  name : String
  distribution_name : String
  cdf : Rat → Rat
  isf : Rat → Rat
  get_return_value : ScalarOrArray → Option Rat → ModelKwargs → RVResult

/-- The pipeline state held by an `EVA` instance: the cleaned signal plus the
optional attributes initialised to `None` in `__init__` and filled in by
`get_extremes` / `fit_model`. -/
structure EVAState where
  data : List (Rat × Option Rat)
  extremes : Option (List (Rat × Rat)) := none
  extremes_method : Option String := none
  extremes_type : Option String := none
  extremes_kwargs : Option StoredKwargs := none
  extremes_transformer : Option Transformer := none
  model : Option Model := none
  model_kwargs : Option ModelKwargs := none

/-- `data.index.is_monotonic_increasing` on the list of timestamps
(non-strict, as in pandas). -/
def is_monotonic_increasing : List Rat → Bool
  | [] => true
  | [_] => true
  | a :: b :: rest => decide (a ≤ b) && is_monotonic_increasing (b :: rest)

/-- `self.data.sort_index(ascending=True)`: stable sort of the entries by
timestamp. -/
def sort_index (entries : List (Rat × Option Rat)) : List (Rat × Option Rat) :=
  entries.mergeSort (fun a b => decide (a.1 ≤ b.1))

/-- `np.any(pd.isna(data))`. -/
def hasNa (entries : List (Rat × Option Rat)) : Bool :=
  entries.any (fun e => e.2.isNone)

/-- `self.data.dropna()`. -/
def dropna (entries : List (Rat × Option Rat)) : List (Rat × Option Rat) :=
  entries.filter (fun e => e.2.isSome)

/-- `EVA.__init__` (`eva.py` lines 54–85): type validation, defensive copy,
conditional re-sort, conditional NaN removal, and initialisation of all
pipeline attributes to `None`.  The returned list collects the
`logger.warning` messages emitted (data-cleaning is reported, not fatal). -/
def eva_init (input : PyInput) : Except PyError (EVAState × List String) :=
  match input with
  | .other typename =>
      .error (.typeError s!"invalid type in {typename} for the data argument")
  | .series s =>
      if s.indexKind ≠ .datetime then
        .error (.typeError "index of data must be a sequence of date-time objects")
      else if s.dtype ≠ .numeric then
        .error (.typeError s!"data must be numeric, {s.dtype.name} dtype was passed")
      else
        let data0 := s.entries
        let (data1, warn1) :=
          if is_monotonic_increasing (data0.map Prod.fst) then (data0, ([] : List String))
          else (sort_index data0, ["data index is not sorted - sorting data by index"])
        let (data2, warn2) :=
          if hasNa data0 then
            (dropna data1, warn1 ++ ["nan values found in data - removing invalid entries"])
          else (data1, warn1)
        .ok ({ data := data2 }, warn2)

/-- Lines 231–234 of `get_extremes`: copy the kwargs and, when a `block_size`
key is present as a string, convert it with `pd.to_timedelta`. -/
def normalizeKwargs (pdToTimedelta : String → Rat) (kw : ExtremesKwargsIn) : StoredKwargs :=
  { block_size :=
      match kw.block_size with
      | none => none
      | some (.str s) => some (pdToTimedelta s)
      | some (.td d) => some d
    threshold := kw.threshold
    r := kw.r
    errors := kw.errors }

/-- `EVA.get_extremes` (`eva.py` lines 193–245).  `extract` is the external
`pyextremes.extremes.get_extremes` collaborator, `pdToTimedelta` is
`pandas.to_timedelta`, and `mkTransformer` is the `ExtremesTransformer`
constructor (applied to extremes, method, extremes_type). -/
def eva_get_extremes
    (extract : String → List (Rat × Option Rat) → String → ExtremesKwargsIn →
      Except PyError (List (Rat × Rat)))
    (pdToTimedelta : String → Rat)
    (mkTransformer : List (Rat × Rat) → String → String → Transformer)
    (st : EVAState) (method : String) (extremes_type : String)
    (kwargs : ExtremesKwargsIn) : Except PyError EVAState := do
  let extremes ← extract method st.data extremes_type kwargs
  .ok { st with
    extremes := some extremes
    extremes_method := some method
    extremes_type := some extremes_type
    extremes_kwargs := some (normalizeKwargs pdToTimedelta kwargs)
    extremes_transformer := some (mkTransformer extremes method extremes_type)
    model := none
    model_kwargs := none }

/-- `EVA.fit_model` (`eva.py` lines 277–334).  `get_model` is the external
`pyextremes.models.get_model` collaborator (model name, transformed extremes,
distribution name, kwargs).  The two `if`/`elif` membership tests of lines
316 and 321 are flattened into guarded conditions; the tested name sets are
disjoint, so the flattening is behaviour-preserving. -/
def fit_model
    (get_model : String → List Rat → String → ModelKwargs → Model)
    (st : EVAState) (model : String) (distribution : String)
    (kwargs : ModelKwargs) : Except PyError EVAState :=
  match st.extremes with
  | none =>
      .error (.attributeError
        "extreme values must be extracted before fitting a model, use .get_extremes method")
  | some _ =>
      if (distribution = "genextreme" ∨ distribution = "gumbel_r") ∧
          st.extremes_method ≠ some "BM" then
        .error (.valueError
          s!"{distribution} distribution is only applicable to extremes extracted using the BM model")
      else if (distribution = "genpareto" ∨ distribution = "expon") ∧
          st.extremes_method ≠ some "POT" then
        .error (.valueError
          s!"{distribution} distribution is only applicable to extremes extracted using the POT model")
      else
        match st.extremes_transformer with
        | none =>
            .error (.attributeError
              "NoneType object has no attribute transformed_extremes")
        | some tr =>
            .ok { st with
              model := some (get_model model tr.transformed_extremes distribution kwargs)
              model_kwargs := some kwargs }

/-- The `return_period` argument of `get_return_value`: Python values
distinguished exactly as the code does, by `hasattr(·, __iter__)` (true for
`str` and `list`) and `isinstance(·, float)`. -/
inductive ReturnPeriodArg where
  | float (x : Rat)
  | int (n : Int)
  | str (s : String)
  | list (xs : List Rat)
  | pyNone
  deriving DecidableEq, Repr

/-- The Python type name interpolated into the TypeError message of line 395. -/
def ReturnPeriodArg.typeName : ReturnPeriodArg → String
  | .float _ => "float"
  | .int _ => "int"
  | .str _ => "str"
  | .list _ => "list"
  | .pyNone => "NoneType"

/-- Lines 376–385 of `get_return_value`: the extremes occurrence rate.
For BM the stored kwargs dictionary is indexed at `block_size`
unconditionally (KeyError when absent, TypeError when `extremes_kwargs` is
still `None`); for POT, `n_periods` spans the first to last timestamp of the
*signal* (`self.data`), divided into the extremes count.  A zero denominator
is a Python ZeroDivisionError. -/
def computeExtremesRate (st : EVAState) (return_period_size : Rat) :
    Except PyError Rat :=
  match st.extremes_method with
  | some "BM" =>
      match st.extremes_kwargs with
      | none => .error (.typeError "NoneType object is not subscriptable")
      | some kw =>
          match kw.block_size with
          | none => .error (.keyError "block_size")
          | some bs =>
              if bs = 0 then .error .zeroDivisionError
              else .ok (return_period_size / bs)
  | some "POT" =>
      match st.data with
      | [] => .error .indexError
      | d0 :: rest =>
          let n_periods := ((List.getLastD rest d0).1 - d0.1) / return_period_size
          match st.extremes with
          | none => .error (.typeError "object of type NoneType has no len")
          | some extremes =>
              if n_periods = 0 then .error .zeroDivisionError
              else .ok ((extremes.length : Rat) / n_periods)
  | _ => .error .runtimeError

/-- Lines 387–397 of `get_return_value`: the requested return period(s)
converted to exceedance probability.  A non-string iterable maps to
`1 / np.array(return_period) / extremes_rate`; a `float` scalar maps to
`1 / return_period / extremes_rate`; anything else — including an `int`
scalar — raises a TypeError. -/
def computeExceedanceProbability (return_period : ReturnPeriodArg)
    (extremes_rate : Rat) : Except PyError ScalarOrArray :=
  match return_period with
  | .list xs => .ok (.array (xs.map (fun t => 1 / t / extremes_rate)))
  | .float x => .ok (.scalar (1 / x / extremes_rate))
  | rp =>
      .error (.typeError
        s!"invalid type in <class {rp.typeName}> for the return_period argument")

/-- `EVA.get_return_value` (`eva.py` lines 336–404): occurrence rate, then
exceedance probability, then delegation to the fitted model collaborator
(`self.model.get_return_value`; AttributeError when no model is fit). -/
def eva_get_return_value (st : EVAState) (return_period : ReturnPeriodArg)
    (return_period_size : Rat) (alpha : Option Rat) (kwargs : ModelKwargs) :
    Except PyError RVResult := do
  let extremes_rate ← computeExtremesRate st return_period_size
  let exceedance_probability ← computeExceedanceProbability return_period extremes_rate
  match st.model with
  | none => .error (.attributeError "NoneType object has no attribute get_return_value")
  | some m => .ok (m.get_return_value exceedance_probability alpha kwargs)

/-- One row of the table produced by the `get_return_periods` collaborator:
the observed extreme value (column named after the extremes series) and its
empirical exceedance probability. -/
structure ObservedRow where
  value : Rat
  exceedance_probability : Rat
  deriving DecidableEq, Repr

/-- `EVA.plot_probability` (`eva.py` lines 536–614), up to rendering: the
(observed, theoretical) coordinate sequences handed to the plotting
collaborator.  `get_return_periods` is the external Return-Period Estimator,
called with the block size looked up from the stored kwargs (the
`try`/`except KeyError` of lines 577–580 yields `None` when the key is
absent).  `plot_type` values other than PP and QQ raise a ValueError naming
the allowed set.  (In the message, the quotes around the offending value and
around plot_type are elided.) -/
def plot_probability
    (get_return_periods : List (Rat × Option Rat) → Option (List (Rat × Rat)) →
      Option String → Option String → Option Rat → Rat → String → List ObservedRow)
    (st : EVAState) (plot_type : String) (return_period_size : Rat)
    (plotting_position : String) : Except PyError (List Rat × List Rat) :=
  match st.extremes_kwargs with
  | none => .error (.typeError "NoneType object is not subscriptable")
  | some kw =>
      let block_size : Option Rat := kw.block_size
      let observed_return_values :=
        get_return_periods st.data st.extremes st.extremes_method st.extremes_type
          block_size return_period_size plotting_position
      if plot_type = "PP" then
        match st.model with
        | none => .error (.attributeError "NoneType object has no attribute cdf")
        | some m =>
            match st.extremes_transformer with
            | none =>
                .error (.attributeError
                  "NoneType object has no attribute forward_transform")
            | some tr =>
                match st.extremes with
                | none => .error (.attributeError "NoneType object has no attribute name")
                | some _ =>
                    let observed := observed_return_values.map
                      (fun row => 1 - row.exceedance_probability)
                    let theoretical := observed_return_values.map
                      (fun row => m.cdf (tr.forward_transform row.value))
                    .ok (observed, theoretical)
      else if plot_type = "QQ" then
        match st.extremes with
        | none => .error (.attributeError "NoneType object has no attribute name")
        | some _ =>
            match st.extremes_transformer with
            | none =>
                .error (.attributeError
                  "NoneType object has no attribute inverse_transform")
            | some tr =>
                match st.model with
                | none => .error (.attributeError "NoneType object has no attribute isf")
                | some m =>
                    let observed := observed_return_values.map (fun row => row.value)
                    let theoretical := observed_return_values.map
                      (fun row => tr.inverse_transform (m.isf row.exceedance_probability))
                    .ok (observed, theoretical)
      else
        .error (.valueError
          s!"{plot_type} is not a valid plot_type value. Available plot_types: PP, QQ")

/-- The POT occurrence rate as the specification words it: count of extracted
extremes divided by the total observed signal duration expressed in units of
the return-period size.  Stated from the spec text, for comparison with the
rate computed by `computeExtremesRate`. -/
def pot_rate_spec (count : Nat) (signal_duration return_period_size : Rat) : Rat :=
  count / (signal_duration / return_period_size)

/-! ### Concrete collaborator stubs and pipeline states used as witnesses -/

/-- A transformer stub with identity transforms. -/
def idTransformer : Transformer :=
  { forward_transform := id
    inverse_transform := id
    transformed_extremes := [1, 2] }

/-- A model stub whose `get_return_value` echoes the exceedance probability it
was handed, making the orchestrator's conversion observable. -/
def probeModel : Model :=
  { name := "MLE"
    distribution_name := "genextreme"
    cdf := id
    isf := id
    get_return_value := fun p _ _ =>
      { return_value := p, lower_ci := none, upper_ci := none } }

/-- A pipeline state after a POT extraction: signal spanning timestamps 0–10,
two extremes spanning timestamps 2–4, threshold 2, and a fitted model. -/
def potFixture : EVAState :=
  { data := [(0, some 1), (3, some 5), (10, some 2)]
    extremes := some [(2, 3), (4, 5)]
    extremes_method := some "POT"
    extremes_type := some "high"
    extremes_kwargs := some { threshold := some 2 }
    extremes_transformer := some idTransformer
    model := some probeModel
    model_kwargs := none }

/-- A pipeline state after a BM extraction with a 1-unit block size and a
fitted model. -/
def bmFixture : EVAState :=
  { data := [(0, some 1), (2, some 4)]
    extremes := some [(0, 1), (2, 4)]
    extremes_method := some "BM"
    extremes_type := some "high"
    extremes_kwargs := some { block_size := some 1 }
    extremes_transformer := some idTransformer
    model := some probeModel
    model_kwargs := none }

/-- An extraction collaborator stub returning a fixed extremes series. -/
def extractStub : String → List (Rat × Option Rat) → String → ExtremesKwargsIn →
    Except PyError (List (Rat × Rat)) :=
  fun _ _ _ _ => .ok [(0, 5), (1, 7)]

/-- A `pandas.to_timedelta` stub. -/
def tdStub : String → Rat := fun _ => 365

/-- An `ExtremesTransformer` constructor stub. -/
def mkTransformerStub : List (Rat × Rat) → String → String → Transformer :=
  fun e _ _ =>
    { forward_transform := id
      inverse_transform := id
      transformed_extremes := e.map Prod.snd }

/-- A `get_model` collaborator stub. -/
def getModelStub : String → List Rat → String → ModelKwargs → Model :=
  fun mname te dist _ =>
    { name := mname
      distribution_name := dist
      cdf := fun x => x + te.length
      isf := id
      get_return_value := fun p _ _ =>
        { return_value := p, lower_ci := none, upper_ci := none } }

/-- A `get_return_periods` collaborator stub returning a fixed two-row table
of observed values and empirical exceedance probabilities. -/
def grpStub : List (Rat × Option Rat) → Option (List (Rat × Rat)) →
    Option String → Option String → Option Rat → Rat → String → List ObservedRow :=
  fun _ _ _ _ _ _ _ => [⟨5, 1/4⟩, ⟨3, 1/2⟩]

/-! ### Claim theorems -/

/-- C3: on every pipeline state on which extraction has not yet been
performed (`extremes` is `None`), `fit_model` fails — for every model
collaborator, so the collaborator is never invoked and no new state is
produced — with an AttributeError whose message instructs the caller to use
the `.get_extremes` step first. -/
theorem fit_model_requires_extraction
    (st : EVAState) (h : st.extremes = none)
    (get_model : String → List Rat → String → ModelKwargs → Model)
    (mname distribution : String) (kwargs : ModelKwargs) :
    fit_model get_model st mname distribution kwargs =
      .error (.attributeError
        "extreme values must be extracted before fitting a model, use .get_extremes method") := by
  simp [fit_model, h]

/-- Witness for C3: the freshly constructed pipeline (all optional attributes
`None`) refuses to fit. -/
theorem fit_model_requires_extraction_witness :
    ({ data := [(0, some 1)] } : EVAState).extremes = none ∧
    fit_model getModelStub { data := [(0, some 1)] } "MLE" "genextreme" {} =
      .error (.attributeError
        "extreme values must be extracted before fitting a model, use .get_extremes method") :=
  ⟨rfl, fit_model_requires_extraction _ rfl getModelStub "MLE" "genextreme" {}⟩

/-- C1: after extraction, fitting a maxima-family distribution (`genextreme`
or `gumbel_r`) when the stored method is not BM, or a threshold-family
distribution (`genpareto` or `expon`) when the stored method is not POT,
fails with a ValueError for *every* model collaborator — so the collaborator
is never invoked and no state with a model is produced — while any
distribution outside these four is passed straight through to the
collaborator. -/
theorem fit_model_compatibility
    (st : EVAState) (ex : List (Rat × Rat)) (mname distribution : String)
    (kwargs : ModelKwargs) (hex : st.extremes = some ex) :
    ((distribution = "genextreme" ∨ distribution = "gumbel_r") →
      st.extremes_method ≠ some "BM" →
      ∀ get_model, fit_model get_model st mname distribution kwargs =
        .error (.valueError
          s!"{distribution} distribution is only applicable to extremes extracted using the BM model")) ∧
    ((distribution = "genpareto" ∨ distribution = "expon") →
      st.extremes_method ≠ some "POT" →
      ∀ get_model, fit_model get_model st mname distribution kwargs =
        .error (.valueError
          s!"{distribution} distribution is only applicable to extremes extracted using the POT model")) ∧
    (distribution ∉ ["genextreme", "gumbel_r", "genpareto", "expon"] →
      ∀ get_model tr, st.extremes_transformer = some tr →
        fit_model get_model st mname distribution kwargs =
          .ok { st with
            model := some (get_model mname tr.transformed_extremes distribution kwargs)
            model_kwargs := some kwargs }) := by
  refine ⟨fun hd hm get_model => ?_, fun hd hm get_model => ?_, fun hd get_model tr htr => ?_⟩
  · simp only [fit_model, hex]
    rw [if_pos ⟨hd, hm⟩]
  · have hd' : ¬(distribution = "genextreme" ∨ distribution = "gumbel_r") := by
      rcases hd with h | h <;> simp [h]
    simp only [fit_model, hex]
    rw [if_neg (fun hc => hd' hc.1), if_pos ⟨hd, hm⟩]
  · simp only [List.mem_cons, List.not_mem_nil, or_false, not_or] at hd
    obtain ⟨h1, h2, h3, h4⟩ := hd
    simp only [fit_model, hex, htr]
    rw [if_neg (fun hc => hc.1.elim h1 h2), if_neg (fun hc => hc.1.elim h3 h4)]

/-- Witness for C1: on the POT fixture, fitting `genextreme` fails with the
compatibility ValueError for the stub collaborator, while the unrecognized
distribution name `norm` is passed through to the collaborator. -/
theorem fit_model_compatibility_witness :
    potFixture.extremes = some [(2, 3), (4, 5)] ∧
    fit_model getModelStub potFixture "MLE" "genextreme" {} =
      .error (.valueError
        "genextreme distribution is only applicable to extremes extracted using the BM model") ∧
    fit_model getModelStub potFixture "MLE" "norm" {} =
      .ok { potFixture with
        model := some (getModelStub "MLE" idTransformer.transformed_extremes "norm" {})
        model_kwargs := some {} } := by
  refine ⟨rfl, ?_, ?_⟩
  · exact (fit_model_compatibility potFixture [(2, 3), (4, 5)] "MLE" "genextreme" {} rfl).1
      (Or.inl rfl) (by decide) getModelStub
  · exact (fit_model_compatibility potFixture [(2, 3), (4, 5)] "MLE" "norm" {} rfl).2.2
      (by decide) getModelStub idTransformer rfl

/-- C6: whenever `get_extremes` succeeds (the extraction collaborator
returns a result), the new state stores the extraction result, its method,
type, normalized parameters and a fresh transformer, and the fitted-model
state is cleared: `model` and `model_kwargs` are both `None` — even if the
incoming state had a model. -/
theorem get_extremes_clears_model
    (extract : String → List (Rat × Option Rat) → String → ExtremesKwargsIn →
      Except PyError (List (Rat × Rat)))
    (pdToTimedelta : String → Rat)
    (mkTransformer : List (Rat × Rat) → String → String → Transformer)
    (st : EVAState) (method etype : String) (kwargs : ExtremesKwargsIn)
    (ex : List (Rat × Rat))
    (hok : extract method st.data etype kwargs = .ok ex) :
    eva_get_extremes extract pdToTimedelta mkTransformer st method etype kwargs =
      .ok { st with
        extremes := some ex
        extremes_method := some method
        extremes_type := some etype
        extremes_kwargs := some (normalizeKwargs pdToTimedelta kwargs)
        extremes_transformer := some (mkTransformer ex method etype)
        model := none
        model_kwargs := none } := by
  simp only [eva_get_extremes, hok]
  rfl

/-- Witness for C6: re-extracting on the BM fixture — which has a fitted
model — produces a state whose `model` and `model_kwargs` are `None`. -/
theorem get_extremes_clears_model_witness :
    extractStub "POT" bmFixture.data "high" { threshold := some 2 } = .ok [(0, 5), (1, 7)] ∧
    bmFixture.model = some probeModel ∧
    eva_get_extremes extractStub tdStub mkTransformerStub bmFixture "POT" "high"
        { threshold := some 2 } =
      .ok { bmFixture with
        extremes := some [(0, 5), (1, 7)]
        extremes_method := some "POT"
        extremes_type := some "high"
        extremes_kwargs := some (normalizeKwargs tdStub { threshold := some 2 })
        extremes_transformer := some (mkTransformerStub [(0, 5), (1, 7)] "POT" "high")
        model := none
        model_kwargs := none } :=
  ⟨rfl, rfl,
    get_extremes_clears_model extractStub tdStub mkTransformerStub bmFixture "POT" "high"
      { threshold := some 2 } [(0, 5), (1, 7)] rfl⟩

/-- C8: construction fails with a TypeError whenever the input is not a
pandas Series, or its index is not composed of date-time values, or its
values are not of a numeric dtype; in every such case `eva_init` returns the
error immediately, so no pipeline state is constructed. -/
theorem eva_init_type_validation
    (typename : String) (s t : PySeries)
    (hidx : s.indexKind ≠ .datetime)
    (htidx : t.indexKind = .datetime) (htdt : t.dtype ≠ .numeric) :
    eva_init (.other typename) =
      .error (.typeError s!"invalid type in {typename} for the data argument") ∧
    eva_init (.series s) =
      .error (.typeError "index of data must be a sequence of date-time objects") ∧
    eva_init (.series t) =
      .error (.typeError s!"data must be numeric, {t.dtype.name} dtype was passed") := by
  refine ⟨rfl, ?_, ?_⟩
  · simp [eva_init, hidx]
  · simp [eva_init, htidx, htdt]

/-- Witness for C8: a dict input, a Series over an integer index, and a
Series of non-numeric dtype are each rejected with the matching TypeError. -/
theorem eva_init_type_validation_witness :
    ({ indexKind := .other, dtype := .numeric, entries := [] } : PySeries).indexKind ≠ .datetime ∧
    ({ indexKind := .datetime, dtype := .object, entries := [] } : PySeries).dtype ≠ .numeric ∧
    eva_init (.other "dict") =
      .error (.typeError "invalid type in dict for the data argument") ∧
    eva_init (.series { indexKind := .other, dtype := .numeric, entries := [] }) =
      .error (.typeError "index of data must be a sequence of date-time objects") ∧
    eva_init (.series { indexKind := .datetime, dtype := .object, entries := [] }) =
      .error (.typeError "data must be numeric, object dtype was passed") := by
  have h := eva_init_type_validation "dict"
    { indexKind := .other, dtype := .numeric, entries := [] }
    { indexKind := .datetime, dtype := .object, entries := [] }
    (by decide) rfl (by decide)
  exact ⟨by decide, by decide, h.1, h.2.1, h.2.2⟩

/-- The Bool monotonicity check agrees with `List.Chain'` of `≤`. -/
theorem is_monotonic_increasing_iff (l : List Rat) :
    is_monotonic_increasing l = true ↔ l.Chain' (· ≤ ·) := by
  induction l with
  | nil => simp [is_monotonic_increasing]
  | cons a t ih =>
    cases t with
    | nil => simp [is_monotonic_increasing]
    | cons b r =>
      rw [List.chain'_cons, ← ih]
      simp [is_monotonic_increasing]

/-- `sort_index` output is pairwise ordered by timestamp. -/
theorem pairwise_fst_sort_index (l : List (Rat × Option Rat)) :
    List.Pairwise (fun a b => a.1 ≤ b.1) (sort_index l) := by
  have h := @List.sorted_mergeSort (Rat × Option Rat)
    (fun a b => decide (a.1 ≤ b.1))
    (fun a b c hab hbc => by
      simp only [decide_eq_true_eq] at hab hbc ⊢
      exact le_trans hab hbc)
    (fun a b => by
      simp only [Bool.or_eq_true, decide_eq_true_eq]
      exact le_total a.1 b.1) l
  simpa [sort_index] using h

/-- Entries pairwise ordered by timestamp pass the monotonicity check. -/
theorem imi_of_pairwise_fst {l : List (Rat × Option Rat)}
    (h : List.Pairwise (fun a b => a.1 ≤ b.1) l) :
    is_monotonic_increasing (l.map Prod.fst) = true := by
  rw [is_monotonic_increasing_iff]
  exact (List.pairwise_map.mpr h).chain'

/-- Entries passing the monotonicity check are pairwise ordered. -/
theorem pairwise_fst_of_imi {l : List (Rat × Option Rat)}
    (h : is_monotonic_increasing (l.map Prod.fst) = true) :
    List.Pairwise (fun a b => a.1 ≤ b.1) l := by
  rw [is_monotonic_increasing_iff] at h
  exact List.pairwise_map.mp (List.chain'_iff_pairwise.mp h)

/-- C7: for every well-typed input signal, construction succeeds and stores
a copy whose index is sorted ascending and which contains no null values —
regardless of the input order and of null entries; the stored entries are
exactly (a permutation of) the non-null input entries, and each anomaly is
reported with its warning message rather than aborting construction. -/
theorem eva_init_cleans_data (s : PySeries)
    (hidx : s.indexKind = .datetime) (hdt : s.dtype = .numeric) :
    ∃ st warnings,
      eva_init (.series s) = .ok (st, warnings) ∧
      is_monotonic_increasing (st.data.map Prod.fst) = true ∧
      (∀ e ∈ st.data, e.2.isSome = true) ∧
      st.data.Perm (dropna s.entries) ∧
      (is_monotonic_increasing (s.entries.map Prod.fst) = false →
        "data index is not sorted - sorting data by index" ∈ warnings) ∧
      (hasNa s.entries = true →
        "nan values found in data - removing invalid entries" ∈ warnings) := by
  have hsome_of_hna : hasNa s.entries = false → ∀ e ∈ s.entries, e.2.isSome = true := by
    intro hna e he
    rw [hasNa, List.any_eq_false] at hna
    have := hna e he
    cases h2 : e.2 with
    | none => rw [h2] at this; simp at this
    | some v => rfl
  by_cases hmono : is_monotonic_increasing (s.entries.map Prod.fst) = true
  · by_cases hna : hasNa s.entries = true
    · refine ⟨{ data := dropna s.entries },
        ["nan values found in data - removing invalid entries"],
        by simp [eva_init, hidx, hdt, hmono, hna],
        ?_, ?_, List.Perm.refl _, ?_, ?_⟩
      · exact imi_of_pairwise_fst
          ((pairwise_fst_of_imi hmono).sublist (List.filter_sublist _))
      · intro e he
        exact (List.mem_filter.mp he).2
      · intro h; rw [h] at hmono; cases hmono
      · intro _; simp
    · rw [Bool.not_eq_true] at hna
      refine ⟨{ data := s.entries }, [],
        by simp [eva_init, hidx, hdt, hmono, hna],
        hmono, hsome_of_hna hna, ?_, ?_, ?_⟩
      · rw [dropna, List.filter_eq_self.mpr (hsome_of_hna hna)]
      · intro h; rw [h] at hmono; cases hmono
      · intro h; rw [h] at hna; cases hna
  · rw [Bool.not_eq_true] at hmono
    by_cases hna : hasNa s.entries = true
    · refine ⟨{ data := dropna (sort_index s.entries) },
        ["data index is not sorted - sorting data by index",
         "nan values found in data - removing invalid entries"],
        by simp [eva_init, hidx, hdt, hmono, hna], ?_, ?_, ?_, ?_, ?_⟩
      · exact imi_of_pairwise_fst
          ((pairwise_fst_sort_index s.entries).sublist (List.filter_sublist _))
      · intro e he
        exact (List.mem_filter.mp he).2
      · exact (List.mergeSort_perm s.entries _).filter _
      · intro _; simp
      · intro _; simp
    · rw [Bool.not_eq_true] at hna
      refine ⟨{ data := sort_index s.entries },
        ["data index is not sorted - sorting data by index"],
        by simp [eva_init, hidx, hdt, hmono, hna], ?_, ?_, ?_, ?_, ?_⟩
      · exact imi_of_pairwise_fst (pairwise_fst_sort_index s.entries)
      · intro e he
        exact hsome_of_hna hna e ((List.mergeSort_perm s.entries _).mem_iff.mp he)
      · rw [dropna, List.filter_eq_self.mpr (hsome_of_hna hna)]
        exact List.mergeSort_perm s.entries _
      · intro _; simp
      · intro h; rw [h] at hna; cases hna

/-- The input series used as the C7 witness: unsorted, with one null entry. -/
def dirtySeries : PySeries :=
  { indexKind := .datetime
    dtype := .numeric
    entries := [(3, some 7), (1, none), (2, some 5)] }

/-- Witness for C7: an unsorted signal containing a null entry is cleaned —
sorted, null-free, both warnings emitted — and construction succeeds. -/
theorem eva_init_cleans_data_witness :
    dirtySeries.indexKind = .datetime ∧ dirtySeries.dtype = .numeric ∧
    (∃ st warnings,
      eva_init (.series dirtySeries) = .ok (st, warnings) ∧
      is_monotonic_increasing (st.data.map Prod.fst) = true ∧
      (∀ e ∈ st.data, e.2.isSome = true) ∧
      st.data.Perm (dropna dirtySeries.entries) ∧
      (is_monotonic_increasing (dirtySeries.entries.map Prod.fst) = false →
        "data index is not sorted - sorting data by index" ∈ warnings) ∧
      (hasNa dirtySeries.entries = true →
        "nan values found in data - removing invalid entries" ∈ warnings)) :=
  ⟨rfl, rfl, eva_init_cleans_data dirtySeries rfl rfl⟩

/-- C2: on a BM pipeline whose stored block size equals exactly one unit of
the return-period size, the occurrence rate is exactly 1, each single return
period `T` converts to exceedance probability exactly `1 / T`, and the
request `[10, 50, 100]` is handed to the model collaborator as exactly
`[0.1, 0.02, 0.01]`. -/
theorem bm_unit_block_conversion
    (st : EVAState) (kw : StoredKwargs) (b : Rat) (m : Model)
    (hmethod : st.extremes_method = some "BM")
    (hkw : st.extremes_kwargs = some kw)
    (hbs : kw.block_size = some b) (hb : b ≠ 0)
    (hm : st.model = some m) (alpha : Option Rat) (kwargs : ModelKwargs) :
    computeExtremesRate st b = .ok 1 ∧
    (∀ T : Rat, computeExceedanceProbability (.float T) 1 = .ok (.scalar (1 / T))) ∧
    eva_get_return_value st (.list [10, 50, 100]) b alpha kwargs =
      .ok (m.get_return_value (.array [0.1, 0.02, 0.01]) alpha kwargs) := by
  have hrate : computeExtremesRate st b = .ok 1 := by
    simp [computeExtremesRate, hmethod, hkw, hbs, hb, div_self hb]
  refine ⟨hrate, fun T => by simp [computeExceedanceProbability], ?_⟩
  have harr : (.array [0.1, 0.02, 0.01] : ScalarOrArray) =
      .array ([10, 50, 100].map (fun t => 1 / t / 1)) := by
    norm_num
  rw [eva_get_return_value, hrate, harr]
  show (do
    let p ← computeExceedanceProbability (.list [10, 50, 100]) 1
    match st.model with
    | none => Except.error (.attributeError "NoneType object has no attribute get_return_value")
    | some mm => Except.ok (mm.get_return_value p alpha kwargs)) = _
  simp only [computeExceedanceProbability, hm]
  rfl

/-- Witness for C2: the BM fixture (block size 1) with return-period size 1
yields rate 1 and exceedance probabilities `[0.1, 0.02, 0.01]`. -/
theorem bm_unit_block_conversion_witness :
    bmFixture.extremes_method = some "BM" ∧
    (1 : Rat) ≠ 0 ∧
    computeExtremesRate bmFixture 1 = .ok 1 ∧
    computeExceedanceProbability (.float 10) 1 = .ok (.scalar (1 / 10)) ∧
    eva_get_return_value bmFixture (.list [10, 50, 100]) 1 none {} =
      .ok (probeModel.get_return_value (.array [0.1, 0.02, 0.01]) none {}) := by
  have h := bm_unit_block_conversion bmFixture { block_size := some 1 } 1 probeModel
    rfl rfl rfl (by norm_num) rfl none {}
  exact ⟨rfl, by norm_num, h.1, h.2.1 10, h.2.2⟩

/-- C4: on a POT pipeline, the occurrence rate is the number of extracted
extremes divided by the elapsed time between the first and last timestamps
of the *signal* record (`self.data`), expressed in units of the return-period
size — exactly the spec-side formula `pot_rate_spec` applied to the signal
duration, with the extremes timestamps playing no part. -/
theorem pot_rate_uses_signal_duration
    (st : EVAState) (ex : List (Rat × Rat)) (rps : Rat)
    (d0 : Rat × Option Rat) (rest : List (Rat × Option Rat))
    (hmethod : st.extremes_method = some "POT")
    (hex : st.extremes = some ex)
    (hdata : st.data = d0 :: rest)
    (hnz : ((List.getLastD rest d0).1 - d0.1) / rps ≠ 0) :
    computeExtremesRate st rps =
      .ok (pot_rate_spec ex.length ((List.getLastD rest d0).1 - d0.1) rps) := by
  simp only [computeExtremesRate, hmethod, hex, hdata]
  rw [if_neg hnz]
  rfl

/-- Witness for C4: on the POT fixture the signal spans timestamps 0–10
while the two extremes span only 2–4; with a return-period size of 2 the
rate is 2 / (10 / 2) = 2/5, the signal-record value — not the 2 / (2 / 2) = 2
that the extremes span would give. -/
theorem pot_rate_uses_signal_duration_witness :
    potFixture.extremes_method = some "POT" ∧
    computeExtremesRate potFixture 2 =
      .ok (pot_rate_spec 2 ((List.getLastD [((3 : Rat), some 5), (10, some 2)]
        ((0 : Rat), some 1)).1 - 0) 2) ∧
    pot_rate_spec 2 (10 - 0) 2 = 2/5 ∧
    pot_rate_spec 2 (4 - 2) 2 = 2 := by
  refine ⟨rfl, ?_, by norm_num [pot_rate_spec], by norm_num [pot_rate_spec]⟩
  exact pot_rate_uses_signal_duration potFixture [(2, 3), (4, 5)] 2
    (0, some 1) [(3, some 5), (10, some 2)] rfl rfl rfl (by norm_num)

/-- Counterexample to C5 as stated: the integer scalar 10 is a single
numeric return period, yet line 391 of `eva.py` tests `isinstance(·, float)`
only, so on the BM fixture the whole `get_return_value` call fails with a
TypeError instead of being accepted. -/
theorem get_return_value_rejects_int_scalar :
    eva_get_return_value bmFixture (.int 10) 1 none {} =
      .error (.typeError "invalid type in <class int> for the return_period argument") := by
  rfl

/-- C5 amended: `get_return_value` accepts a float-typed single return
period or a (non-string) iterable of return periods; an integer-typed
scalar, a string, or any other shape is rejected with a TypeError.  For a
sequence of `n` return periods the exceedance-probability array has length
`n`, and its `i`-th entry is `1 / (T_i × rate)`, in input order. -/
theorem exceedance_probability_shapes (rate : Rat) :
    (∀ x : Rat, computeExceedanceProbability (.float x) rate =
      .ok (.scalar (1 / (x * rate)))) ∧
    (∀ xs : List Rat,
      computeExceedanceProbability (.list xs) rate =
        .ok (.array (xs.map (fun t => 1 / (t * rate)))) ∧
      (xs.map (fun t => 1 / (t * rate))).length = xs.length ∧
      ∀ i : Fin xs.length,
        (xs.map (fun t => 1 / (t * rate))).get ⟨i.1, by simp [List.length_map, i.isLt]⟩ =
          1 / (xs.get i * rate)) ∧
    (∀ n : Int, computeExceedanceProbability (.int n) rate =
      .error (.typeError "invalid type in <class int> for the return_period argument")) ∧
    (∀ s : String, computeExceedanceProbability (.str s) rate =
      .error (.typeError "invalid type in <class str> for the return_period argument")) ∧
    (computeExceedanceProbability .pyNone rate =
      .error (.typeError "invalid type in <class NoneType> for the return_period argument")) := by
  refine ⟨fun x => ?_, fun xs => ⟨?_, by simp, fun i => ?_⟩, fun n => rfl, fun s => rfl, rfl⟩
  · simp [computeExceedanceProbability]
    ring
  · simp [computeExceedanceProbability]
    intro a _
    ring
  · simp [List.getElem_map]

/-- C9: for any `plot_type` outside {PP, QQ}, `plot_probability` fails with
a ValueError whose message names the allowed set "PP, QQ"; for PP the
observed coordinates are 1 minus the empirical exceedance probabilities and
the theoretical coordinates are the model CDF of the forward-transformed
observed extremes; for QQ the observed coordinates are the raw extreme
values and the theoretical coordinates are the inverse-transform of the
model inverse-survival at the empirical exceedance probabilities. -/
theorem plot_probability_cases
    (grp : List (Rat × Option Rat) → Option (List (Rat × Rat)) →
      Option String → Option String → Option Rat → Rat → String → List ObservedRow)
    (st : EVAState) (kw : StoredKwargs) (m : Model) (tr : Transformer)
    (ex : List (Rat × Rat)) (rps : Rat) (pp : String)
    (hkw : st.extremes_kwargs = some kw) (hm : st.model = some m)
    (htr : st.extremes_transformer = some tr) (hex : st.extremes = some ex) :
    (∀ pt, pt ≠ "PP" → pt ≠ "QQ" →
      plot_probability grp st pt rps pp =
        .error (.valueError
          s!"{pt} is not a valid plot_type value. Available plot_types: PP, QQ")) ∧
    plot_probability grp st "PP" rps pp =
      .ok ((grp st.data st.extremes st.extremes_method st.extremes_type
              kw.block_size rps pp).map (fun row => 1 - row.exceedance_probability),
           (grp st.data st.extremes st.extremes_method st.extremes_type
              kw.block_size rps pp).map (fun row => m.cdf (tr.forward_transform row.value))) ∧
    plot_probability grp st "QQ" rps pp =
      .ok ((grp st.data st.extremes st.extremes_method st.extremes_type
              kw.block_size rps pp).map (fun row => row.value),
           (grp st.data st.extremes st.extremes_method st.extremes_type
              kw.block_size rps pp).map
             (fun row => tr.inverse_transform (m.isf row.exceedance_probability))) := by
  refine ⟨fun pt h1 h2 => ?_, ?_, ?_⟩
  · simp only [plot_probability, hkw]
    rw [if_neg h1, if_neg h2]
  · simp [plot_probability, hkw, hm, htr, hex]
  · simp [plot_probability, hkw, hm, htr, hex]

/-- Witness for C9: on the BM fixture with the stub estimator, `ZZ` is
rejected with the ValueError naming PP, QQ, while PP and QQ produce the
documented coordinate pairs (computed on the stub's two rows). -/
theorem plot_probability_cases_witness :
    bmFixture.model = some probeModel ∧
    plot_probability grpStub bmFixture "ZZ" 1 "weibull" =
      .error (.valueError "ZZ is not a valid plot_type value. Available plot_types: PP, QQ") ∧
    plot_probability grpStub bmFixture "PP" 1 "weibull" =
      .ok ([1 - 1/4, 1 - 1/2], [probeModel.cdf (idTransformer.forward_transform 5),
        probeModel.cdf (idTransformer.forward_transform 3)]) ∧
    plot_probability grpStub bmFixture "QQ" 1 "weibull" =
      .ok ([5, 3], [idTransformer.inverse_transform (probeModel.isf (1/4)),
        idTransformer.inverse_transform (probeModel.isf (1/2))]) := by
  have h := plot_probability_cases grpStub bmFixture { block_size := some 1 }
    probeModel idTransformer [(0, 1), (2, 4)] 1 "weibull" rfl rfl rfl rfl
  exact ⟨rfl, h.1 "ZZ" (by decide) (by decide), h.2.1, h.2.2⟩

/-- C10: when extraction is performed with method BM without an explicit
`block_size` argument (the collaborator applies its own `1Y` default
internally), the stored kwargs dictionary lacks the `block_size` key, so
every subsequent `get_return_value` call — whatever the return period, its
size, the confidence width or the fitted model — fails with a KeyError on
`block_size`. -/
theorem bm_default_block_size_key_error
    (extract : String → List (Rat × Option Rat) → String → ExtremesKwargsIn →
      Except PyError (List (Rat × Rat)))
    (pdToTimedelta : String → Rat)
    (mkTransformer : List (Rat × Rat) → String → String → Transformer)
    (st st2 : EVAState) (etype : String) (kwargs : ExtremesKwargsIn)
    (hbs : kwargs.block_size = none)
    (hok : eva_get_extremes extract pdToTimedelta mkTransformer st "BM" etype kwargs =
      .ok st2) :
    ∀ (rp : ReturnPeriodArg) (rps : Rat) (alpha : Option Rat) (mkw : ModelKwargs),
      eva_get_return_value st2 rp rps alpha mkw = .error (.keyError "block_size") := by
  intro rp rps alpha mkw
  cases hext : extract "BM" st.data etype kwargs with
  | error e =>
      rw [eva_get_extremes] at hok
      rw [hext] at hok
      cases hok
  | ok ex =>
      rw [eva_get_extremes] at hok
      rw [hext] at hok
      have hst2 : st2 = { st with
          extremes := some ex
          extremes_method := some "BM"
          extremes_type := some etype
          extremes_kwargs := some (normalizeKwargs pdToTimedelta kwargs)
          extremes_transformer := some (mkTransformer ex "BM" etype)
          model := none
          model_kwargs := none } := by
        cases hok
        rfl
      have hrate : computeExtremesRate st2 rps = .error (.keyError "block_size") := by
        rw [hst2]
        simp only [computeExtremesRate]
        rw [normalizeKwargs, hbs]
      rw [eva_get_return_value, hrate]
      rfl

/-- Witness for C10: extracting with BM and empty kwargs through the stub
collaborator, then asking for the 100-unit return value, raises the
`block_size` KeyError. -/
theorem bm_default_block_size_key_error_witness :
    ({} : ExtremesKwargsIn).block_size = none ∧
    eva_get_return_value
      { data := [((0 : Rat), some (1 : Rat))]
        extremes := some [(0, 5), (1, 7)]
        extremes_method := some "BM"
        extremes_type := some "high"
        extremes_kwargs := some (normalizeKwargs tdStub {})
        extremes_transformer := some (mkTransformerStub [(0, 5), (1, 7)] "BM" "high")
        model := none
        model_kwargs := none }
      (.float 100) 1 none {} = .error (.keyError "block_size") :=
  ⟨rfl,
    bm_default_block_size_key_error extractStub tdStub mkTransformerStub
      { data := [((0 : Rat), some (1 : Rat))], model := some probeModel } _ "high" {}
      rfl rfl (.float 100) 1 none {}⟩

end PyExtremes